import Mathlib

/-!
Shallow embedding of the routing and invocation client of the samwise
repository (src/src-tauri/src/llm_client.rs), together with the
configuration record it reads (the `LLMConfig` fields as used by
`llm_client.rs` and constructed by its test module).

Strings are modelled by Lean `String`; the character-level operations the
source performs (Rust `str::starts_with`, `str::contains("/")`, `str::trim`,
`str::trim_start_matches` / `trim_end_matches`) are modelled on the
underlying character list, which agrees with Rust's semantics on Unicode
scalar values.  Rust `char::is_whitespace` is Unicode White_Space; the
inputs the claims exercise are ASCII, modelled by `Char.isWhitespace`.

The adapter functions perform process and HTTP I/O; the embedding factors
each adapter call into (a) the pure routing decision (`processText`,
mirroring `LLMClient::process_text`), (b) the pure request-construction
data each adapter builds (argument vectors, message arrays, bodies), and
(c) the pure response-handling each adapter applies to the backend's reply
(`claudeCliResult`, `atlascloudExtract`).
-/

namespace Samwise

/-- The `llm` section of the configuration, with the fields read by
`llm_client.rs` (`use_claude_cli`, `force_atlascloud_for_claude`, the three
optional API keys, and the CLI model name). -/
structure LLMConfig where
  openai_api_key : Option String
  anthropic_api_key : Option String
  atlascloud_api_key : Option String
  use_claude_cli : Bool
  claude_cli_model : String
  force_atlascloud_for_claude : Bool
deriving DecidableEq, Repr

/-- `AppConfig` from config.rs: the `llm` section plus UI-level fields. -/
structure AppConfig where
  llm : LLMConfig
  selected_model : String
  global_hotkey : String
deriving DecidableEq, Repr

/-- The unified request built at the top of `process_text`. -/
structure LLMRequest where
  system_prompt : String
  user_content : String
deriving DecidableEq, Repr

/-- The routing outcome of `process_text`: which adapter function is invoked
with which arguments, or the error string returned without any adapter
call.  Each constructor records exactly the arguments the source passes to
the corresponding `call_*` function. -/
inductive Decision where
  | claudeCli : LLMRequest → Decision
  | atlascloud : LLMRequest → String → String → Decision
  | anthropic : LLMRequest → String → String → Decision
  | openai : LLMRequest → String → String → Decision
  | err : String → Decision
deriving DecidableEq, Repr

/-- Rust `str::starts_with(pat)` on Unicode scalar values. -/
def strStartsWith (s pat : String) : Bool :=
  pat.data.isPrefixOf s.data

/-- Rust `str::contains("/")`: for a one-character pattern, membership of
that character. -/
def strContainsChar (s : String) (c : Char) : Bool :=
  s.data.contains c

/-- `LLMClient::process_text` (llm_client.rs lines 24-81), with each
`self.call_*` call replaced by the `Decision` constructor recording its
arguments.  The guard order and the error strings are the source's. -/
def processText (config : AppConfig) (prompt text model_id : String) : Decision :=
  let request : LLMRequest := { system_prompt := prompt, user_content := text }
  if strStartsWith model_id "anthropic/claude" then
    if config.llm.force_atlascloud_for_claude then
      match config.llm.atlascloud_api_key with
      | some api_key => Decision.atlascloud request api_key model_id
      | none => Decision.err "Force AtlasCloud is enabled but no AtlasCloud API key configured"
    else if config.llm.use_claude_cli then
      Decision.claudeCli request
    else
      match config.llm.atlascloud_api_key with
      | some api_key => Decision.atlascloud request api_key model_id
      | none => Decision.err "Claude CLI is disabled and no AtlasCloud API key configured"
  else if strStartsWith model_id "claude" then
    if config.llm.use_claude_cli then
      Decision.claudeCli request
    else
      match config.llm.anthropic_api_key with
      | some api_key => Decision.anthropic request api_key model_id
      | none => Decision.err "Claude CLI is disabled and no Anthropic API key configured"
  else if strContainsChar model_id '/' ||
      model_id == "openai/gpt-5.1" ||
      model_id == "deepseek-ai/deepseek-v3.2-speciale" ||
      model_id == "openai/gpt-5-mini-developer" ||
      model_id == "google/gemini-2.5-flash" then
    match config.llm.atlascloud_api_key with
    | some api_key => Decision.atlascloud request api_key model_id
    | none => Decision.err "No AtlasCloud API key configured"
  else if strStartsWith model_id "gpt" then
    match config.llm.openai_api_key with
    | some api_key => Decision.openai request api_key model_id
    | none => Decision.err "No OpenAI API key configured"
  else
    Decision.err ("Unsupported model: " ++ model_id)

/-- The request the decision carries to an adapter, if any. -/
def Decision.request : Decision → Option LLMRequest
  | Decision.claudeCli r => some r
  | Decision.atlascloud r _ _ => some r
  | Decision.anthropic r _ _ => some r
  | Decision.openai r _ _ => some r
  | Decision.err _ => none

/-! ### Local-process adapter (`call_claude_cli`, lines 88-138) -/

/-- Rust `str::trim`: remove whitespace from both ends (modelled on the
character list; `List.dropWhile` from the front, and from the back via
reversal). -/
def trimChars (l : List Char) : List Char :=
  ((l.dropWhile Char.isWhitespace).reverse.dropWhile Char.isWhitespace).reverse

/-- Rust `str::trim_start_matches("```")`: repeatedly remove the pattern
from the front while it is there. -/
def stripLeadingFences : List Char → List Char
  | '`' :: '`' :: '`' :: rest => stripLeadingFences rest
  | l => l

/-- Rust `str::trim_end_matches("```")`: repeatedly remove the pattern from
the back (the reversed pattern is again three backticks). -/
def stripTrailingFences (l : List Char) : List Char :=
  (stripLeadingFences l.reverse).reverse

/-- The output clean-up applied on the success path of `call_claude_cli`
(lines 125-129): `result.trim().trim_start_matches("```")
.trim_end_matches("```").trim()`. -/
def cleanCliOutput (s : String) : String :=
  ⟨trimChars (stripTrailingFences (stripLeadingFences (trimChars s.data)))⟩

/-- The outcome of running the local process: exit status plus captured
standard output and standard error (stdout already decoded as UTF-8, the
successful case of the `String::from_utf8` call at line 121). -/
structure ProcessOutput where
  success : Bool
  stdout : String
  stderr : String
deriving DecidableEq, Repr

/-- The result-handling of `call_claude_cli` after the process ran
(lines 120-137): on success the cleaned stdout, on failure the CLI error
message built from stderr. -/
def claudeCliResult (output : ProcessOutput) : Except String String :=
  if output.success then
    Except.ok (cleanCliOutput output.stdout)
  else
    Except.error ("Claude CLI error: " ++ output.stderr ++
      "\n\nMake sure Claude CLI is installed and authenticated.")

/-- The fixed instruction suffix appended to a non-empty system prompt
(lines 98-101). -/
def importantSuffix : String :=
  "\n\nIMPORTANT: Return ONLY the processed text. Do not include any explanations, meta-commentary, questions, or conversational text. Just return the result directly."

/-- `enhanced_prompt` (lines 95-102): empty stays empty, otherwise the
system prompt with the fixed suffix appended. -/
def enhancedPrompt (request : LLMRequest) : String :=
  if request.system_prompt.isEmpty then "" else request.system_prompt ++ importantSuffix

/-- The argument vector passed to the `claude` executable (lines 104-118):
`-p <user_content>` alone when the enhanced prompt is empty, otherwise
followed by `--system-prompt <enhanced_prompt>`. -/
def claudeCliArgs (request : LLMRequest) : List String :=
  if (enhancedPrompt request).isEmpty then
    ["-p", request.user_content]
  else
    ["-p", request.user_content, "--system-prompt", enhancedPrompt request]

/-! ### Remote adapters: request construction -/

/-- One entry of a chat `messages` array: a role and a content string. -/
structure Message where
  role : String
  content : String
deriving DecidableEq, Repr

/-- The messages array built by `call_atlascloud` (lines 161-176): a
system-role entry only when the system prompt is non-empty, then the
user-role entry. -/
def atlascloudMessages (request : LLMRequest) : List Message :=
  let messages : List Message := []
  let messages :=
    if !request.system_prompt.isEmpty then
      messages ++ [{ role := "system", content := request.system_prompt }]
    else messages
  messages ++ [{ role := "user", content := request.user_content }]

/-- The messages array built by `call_openai_api` (lines 302-314): always a
system-role entry (even when empty) followed by the user-role entry. -/
def openaiMessages (request : LLMRequest) : List Message :=
  [{ role := "system", content := request.system_prompt },
   { role := "user", content := request.user_content }]

/-- The request body built by `call_anthropic_api` (lines 373-384): model,
a top-level `system` field, a single user message, and `max_tokens`
(4096).  The body has no temperature field. -/
structure AnthropicBody where
  model : String
  system : String
  messages : List Message
  max_tokens : Nat
deriving DecidableEq, Repr

/-- `call_anthropic_api`'s body construction (lines 374-384). -/
def anthropicBody (request : LLMRequest) (model_id : String) : AnthropicBody :=
  { model := model_id
    system := request.system_prompt
    messages := [{ role := "user", content := request.user_content }]
    max_tokens := 4096 }

/-! ### Gateway adapter: response handling (`call_atlascloud`, lines 236-293) -/

/-- A JSON value, as far as the extraction code inspects it (`serde_json::Value`
restricted to the operations used: object field lookup, array indexing,
string extraction). -/
inductive Json where
  | null : Json
  | str : String → Json
  | num : Int → Json
  | bool : Bool → Json
  | arr : List Json → Json
  | obj : List (String × Json) → Json
deriving Repr

/-- `Value::get(key)` on an object (first binding wins, as in a map). -/
def Json.get (j : Json) (key : String) : Option Json :=
  match j with
  | Json.obj fields => (fields.find? (fun kv => kv.fst == key)).map Prod.snd
  | _ => none

/-- `Value::as_array`. -/
def Json.asArr : Json → Option (List Json)
  | Json.arr xs => some xs
  | _ => none

/-- `Value::as_str` (returning the owned string, as the source's
`.map(|s| s.to_string())` does). -/
def Json.asStr : Json → Option String
  | Json.str s => some s
  | _ => none

/-- The primary extraction path (lines 243-250):
`choices[0].message.content` as a string. -/
def choicesPath (j : Json) : Option String :=
  (((((j.get "choices").bind Json.asArr).bind (fun arr => arr.get? 0)).bind
    (fun choice => choice.get "message")).bind
    (fun msg => msg.get "content")).bind Json.asStr

/-- The AtlasCloud-specific extraction path (lines 251-263):
`output[0].content[0].text` as a string. -/
def outputPath (j : Json) : Option String :=
  (((((((j.get "output").bind Json.asArr).bind (fun arr => arr.get? 0)).bind
    (fun msg => msg.get "content")).bind Json.asArr).bind
    (fun arr => arr.get? 0)).bind
    (fun item => item.get "text")).bind Json.asStr

/-- The fallback extraction path (lines 264-281): a top-level `text` or
`content` field that is either a string or an object carrying a `content`
or `text` string. -/
def directPath (j : Json) : Option String :=
  ((j.get "text").orElse (fun _ => j.get "content")).bind fun v =>
    match v with
    | Json.str s => some s
    | Json.obj fields =>
        (((Json.obj fields).get "content").orElse
          (fun _ => (Json.obj fields).get "text")).bind Json.asStr
    | _ => none

/-- The full extraction chain of `call_atlascloud` (lines 243-281): the
primary path, else the AtlasCloud-specific path, else the fallback path. -/
def extractAtlasText (j : Json) : Option String :=
  ((choicesPath j).orElse (fun _ => outputPath j)).orElse (fun _ => directPath j)

/-- The 2xx-response handling of `call_atlascloud` (lines 236-293): extract
the text, or fail with the unexpected-format error (whose message in the
source also carries the pretty-printed body). -/
def atlascloudExtract (json_response : Json) : Except String String :=
  match extractAtlasText json_response with
  | some result => Except.ok result
  | none => Except.error "Unexpected response format."

/-! ### Specification-side formulations of the output clean-up

`specSingleFenceClean` follows the specification's words for the clean-up
("trim whitespace, and strip a single leading/trailing triple-backtick
fence if present"): at most one fence is removed from each side.
`specRepeatedFenceClean` phrases repeated fence removal independently of
the code, by counting the consecutive leading fences and dropping three
characters per fence. -/

/-- Remove at most one leading triple-backtick fence. -/
def stripOneLeadingFence : List Char → List Char
  | '`' :: '`' :: '`' :: rest => rest
  | l => l

/-- Remove at most one trailing triple-backtick fence. -/
def stripOneTrailingFence (l : List Char) : List Char :=
  (stripOneLeadingFence l.reverse).reverse

/-- The clean-up as the specification words it: trim, strip a single
leading and a single trailing fence, trim. -/
def specSingleFenceClean (s : String) : String :=
  ⟨trimChars (stripOneTrailingFence (stripOneLeadingFence (trimChars s.data)))⟩

/-- The number of consecutive leading triple-backtick fences. -/
def fenceDepth : List Char → Nat
  | '`' :: '`' :: '`' :: rest => fenceDepth rest + 1
  | _ => 0

/-- Removing every leading fence, phrased as dropping three characters per
consecutive leading fence. -/
def dropLeadingFenceBlocks (l : List Char) : List Char :=
  l.drop (3 * fenceDepth l)

/-- The clean-up with every leading and trailing fence removed: trim, drop
all leading fence blocks, drop all trailing fence blocks, trim. -/
def specRepeatedFenceClean (s : String) : String :=
  ⟨trimChars ((dropLeadingFenceBlocks ((dropLeadingFenceBlocks (trimChars s.data)).reverse)).reverse)⟩

/-! ### Helper lemmas -/

theorem dropWhile_ws_eq_self (l : List Char)
    (h : l.head?.all (fun c => !c.isWhitespace) = true) :
    l.dropWhile Char.isWhitespace = l := by
  cases l with
  | nil => rfl
  | cons c cs =>
      have h' : (!c.isWhitespace) = true := h
      have hw : c.isWhitespace = false := by
        cases hcw : c.isWhitespace
        · rfl
        · rw [hcw] at h'
          exact absurd h' (by decide)
      simp [List.dropWhile_cons, hw]

theorem trimChars_eq_self (l : List Char)
    (h1 : l.head?.all (fun c => !c.isWhitespace) = true)
    (h2 : l.getLast?.all (fun c => !c.isWhitespace) = true) :
    trimChars l = l := by
  unfold trimChars
  rw [dropWhile_ws_eq_self l h1,
      dropWhile_ws_eq_self l.reverse (by rw [List.head?_reverse]; exact h2),
      List.reverse_reverse]

theorem cleanCliOutput_of_whitespace (s : String)
    (h : s.data.all Char.isWhitespace = true) :
    cleanCliOutput s = "" := by
  have hd : s.data.dropWhile Char.isWhitespace = [] := by
    rw [List.dropWhile_eq_nil_iff]
    intro x hx
    exact List.all_eq_true.mp h x hx
  unfold cleanCliOutput trimChars stripTrailingFences
  rw [hd]
  rfl

theorem stripLeadingFences_eq_self (l : List Char)
    (h : ¬ (['`', '`', '`'] <+: l)) :
    stripLeadingFences l = l := by
  unfold stripLeadingFences
  split
  · next rest => exact absurd ⟨rest, rfl⟩ h
  · rfl

theorem stripLeadingFences_eq_dropBlocks (l : List Char) :
    stripLeadingFences l = dropLeadingFenceBlocks l := by
  induction l using stripLeadingFences.induct with
  | case1 rest ih =>
      rw [show stripLeadingFences ('`' :: '`' :: '`' :: rest) = stripLeadingFences rest from rfl,
        ih]
      unfold dropLeadingFenceBlocks
      rw [show fenceDepth ('`' :: '`' :: '`' :: rest) = fenceDepth rest + 1 from rfl,
        Nat.mul_succ]
      rfl
  | case2 l h =>
      rw [stripLeadingFences_eq_self l (by intro ⟨rest, hr⟩; exact h rest hr.symm)]
      unfold dropLeadingFenceBlocks
      have hz : fenceDepth l = 0 := by
        unfold fenceDepth
        split
        · next rest => exact absurd rfl (h rest)
        · rfl
      rw [hz]
      rfl

/-! ### Claim theorems -/

/-- C1, counterexample: the identifier "claude/x" contains the namespace
separator "/", yet with `use_claude_cli = false`, no AtlasCloud key and an
Anthropic key configured, `process_text` routes to `call_anthropic_api`
(the direct Anthropic adapter), not to the gateway path with a
missing-credential error. -/
theorem c1_counterexample :
    strContainsChar "claude/x" '/' = true ∧
    processText ⟨⟨none, some "anthropic-key", none, false, "claude-3-5-sonnet-20241022", false⟩,
        "claude-3-5-sonnet", "Super+Alt+S"⟩ "p" "t" "claude/x"
      = Decision.anthropic ⟨"p", "t"⟩ "anthropic-key" "claude/x" :=
  ⟨by decide, rfl⟩

/-- C1 (amended): for every model identifier containing "/" that does not
start with "claude", with `use_claude_cli = false` and
`atlascloud_api_key = None`, `process_text` returns an error message
naming the AtlasCloud API key and routes to no adapter, for every
combination of the remaining policy fields. -/
theorem c1_amended (config : AppConfig) (prompt text model_id : String)
    (hslash : strContainsChar model_id '/' = true)
    (hnc : strStartsWith model_id "claude" = false)
    (hcli : config.llm.use_claude_cli = false)
    (hkey : config.llm.atlascloud_api_key = none) :
    ∃ msg, processText config prompt text model_id = Decision.err msg ∧
      "AtlasCloud API key".data <:+: msg.data := by
  unfold processText
  cases hac : strStartsWith model_id "anthropic/claude" with
  | true =>
      cases hf : config.llm.force_atlascloud_for_claude with
      | true =>
          simp only [hac, hf, hkey, if_true]
          exact ⟨_, rfl, by decide⟩
      | false =>
          simp [hac, hf, hkey, hcli]
          exact by decide
  | false =>
      simp [hac, hnc, hslash, hkey]
      exact by decide

/-- C1 witness: the amended statement instantiated at "openai/gpt-5.1"
with an Anthropic and an OpenAI key present but no AtlasCloud key. -/
theorem c1_amended_witness :
    strContainsChar "openai/gpt-5.1" '/' = true ∧
    strStartsWith "openai/gpt-5.1" "claude" = false ∧
    (∃ msg, processText ⟨⟨some "openai-key", some "anthropic-key", none, false, "m", false⟩,
        "sel", "hk"⟩ "p" "t" "openai/gpt-5.1" = Decision.err msg ∧
      "AtlasCloud API key".data <:+: msg.data) :=
  ⟨by decide, by decide,
    c1_amended ⟨⟨some "openai-key", some "anthropic-key", none, false, "m", false⟩, "sel", "hk"⟩
      "p" "t" "openai/gpt-5.1" (by decide) (by decide) rfl rfl⟩

/-- C2: for every identifier with the local-capable provider's prefix (the
namespaced "anthropic/claude..." form or the bare "claude..." form), with
`use_claude_cli = true` and `force_atlascloud_for_claude = false`,
`process_text` routes to `call_claude_cli`, for every configuration of the
API keys. -/
theorem c2_local_cli_preferred (config : AppConfig) (prompt text model_id : String)
    (hid : strStartsWith model_id "anthropic/claude" = true ∨
      strStartsWith model_id "claude" = true)
    (hcli : config.llm.use_claude_cli = true)
    (hforce : config.llm.force_atlascloud_for_claude = false) :
    processText config prompt text model_id = Decision.claudeCli ⟨prompt, text⟩ := by
  unfold processText
  rcases hid with h | h
  · simp [h, hforce, hcli]
  · cases hac : strStartsWith model_id "anthropic/claude"
    · simp [hac, h, hcli]
    · simp [hac, hforce, hcli]

/-- C2 witness: the bare identifier "claude-3-5-sonnet" with all three keys
present routes to the CLI. -/
theorem c2_witness :
    processText ⟨⟨some "openai-key", some "anthropic-key", some "atlas-key", true, "m", false⟩,
      "sel", "hk"⟩ "p" "t" "claude-3-5-sonnet" = Decision.claudeCli ⟨"p", "t"⟩ :=
  c2_local_cli_preferred
    ⟨⟨some "openai-key", some "anthropic-key", some "atlas-key", true, "m", false⟩, "sel", "hk"⟩
    "p" "t" "claude-3-5-sonnet" (Or.inr (by decide)) rfl rfl

/-- C3, counterexample: the bare identifier "claude-3-5-sonnet" has the
local-capable provider's prefix, yet with `use_claude_cli = true`,
`force_atlascloud_for_claude = true` and an AtlasCloud key present,
`process_text` still routes to `call_claude_cli`: the force flag is
consulted only in the "anthropic/claude" arm. -/
theorem c3_counterexample :
    strStartsWith "claude-3-5-sonnet" "claude" = true ∧
    processText ⟨⟨some "openai-key", some "anthropic-key", some "atlas-key", true, "m", true⟩,
      "sel", "hk"⟩ "p" "t" "claude-3-5-sonnet" = Decision.claudeCli ⟨"p", "t"⟩ ∧
    Decision.claudeCli (⟨"p", "t"⟩ : LLMRequest) ≠
      Decision.atlascloud ⟨"p", "t"⟩ "atlas-key" "claude-3-5-sonnet" :=
  ⟨by decide, rfl, by decide⟩

/-- C3 (amended): for every identifier with the namespaced
"anthropic/claude" prefix, with `force_atlascloud_for_claude = true` and
an AtlasCloud key present, `process_text` routes to `call_atlascloud`
instead of the local CLI (also when `use_claude_cli = true`). -/
theorem c3_amended (config : AppConfig) (prompt text model_id api_key : String)
    (hid : strStartsWith model_id "anthropic/claude" = true)
    (_hcli : config.llm.use_claude_cli = true)
    (hforce : config.llm.force_atlascloud_for_claude = true)
    (hkey : config.llm.atlascloud_api_key = some api_key) :
    processText config prompt text model_id =
      Decision.atlascloud ⟨prompt, text⟩ api_key model_id := by
  unfold processText
  simp [hid, hforce, hkey]

/-- C3 witness: "anthropic/claude-3-haiku" with the force flag on and an
AtlasCloud key routes to the gateway adapter. -/
theorem c3_amended_witness :
    strStartsWith "anthropic/claude-3-haiku" "anthropic/claude" = true ∧
    processText ⟨⟨some "openai-key", some "anthropic-key", some "atlas-key", true, "m", true⟩,
      "sel", "hk"⟩ "p" "t" "anthropic/claude-3-haiku" =
      Decision.atlascloud ⟨"p", "t"⟩ "atlas-key" "anthropic/claude-3-haiku" :=
  ⟨by decide,
    c3_amended
      ⟨⟨some "openai-key", some "anthropic-key", some "atlas-key", true, "m", true⟩, "sel", "hk"⟩
      "p" "t" "anthropic/claude-3-haiku" "atlas-key" (by decide) rfl rfl rfl⟩

/-- C4: an identifier matching none of the known shapes (not starting with
"anthropic/claude", not starting with "claude", containing no "/", none of
the four fixed gateway model names, not starting with "gpt") yields the
unsupported-model error for every configuration. -/
theorem c4_unsupported_model (config : AppConfig) (prompt text model_id : String)
    (h1 : strStartsWith model_id "anthropic/claude" = false)
    (h2 : strStartsWith model_id "claude" = false)
    (h3 : strContainsChar model_id '/' = false)
    (h4 : model_id ≠ "openai/gpt-5.1")
    (h5 : model_id ≠ "deepseek-ai/deepseek-v3.2-speciale")
    (h6 : model_id ≠ "openai/gpt-5-mini-developer")
    (h7 : model_id ≠ "google/gemini-2.5-flash")
    (h8 : strStartsWith model_id "gpt" = false) :
    processText config prompt text model_id =
      Decision.err ("Unsupported model: " ++ model_id) := by
  unfold processText
  simp [h1, h2, h3, h4, h5, h6, h7, h8]

/-- C4 witness: "unknown-model-xyz" is unsupported even with every key
present and both flags on. -/
theorem c4_witness :
    processText ⟨⟨some "openai-key", some "anthropic-key", some "atlas-key", true, "m", true⟩,
      "sel", "hk"⟩ "Test prompt" "Test text" "unknown-model-xyz" =
      Decision.err ("Unsupported model: " ++ "unknown-model-xyz") :=
  c4_unsupported_model
    ⟨⟨some "openai-key", some "anthropic-key", some "atlas-key", true, "m", true⟩, "sel", "hk"⟩
    "Test prompt" "Test text" "unknown-model-xyz" (by decide) (by decide) (by decide)
    (by decide) (by decide) (by decide) (by decide) (by decide)

/-- C5, counterexample: on the stdout "``````x``````" (a doubled fence on
each side) the success path of `call_claude_cli` returns "x" — every
fence is stripped, not exactly one per side as the claim states: the
single-strip clean-up would return "```x```". -/
theorem c5_counterexample :
    claudeCliResult ⟨true, "``````x``````", ""⟩ = Except.ok "x" ∧
    specSingleFenceClean "``````x``````" = "```x```" ∧
    ("x" : String) ≠ "```x```" :=
  ⟨rfl, by decide, by decide⟩

/-- C5 (amended): on process success the returned value is stdout trimmed,
with ALL (not exactly one) leading and trailing triple-backtick fences
removed, and trimmed again; `specRepeatedFenceClean` states this by
counting consecutive fences and dropping three characters per fence. -/
theorem c5_amended (output : ProcessOutput) (h : output.success = true) :
    claudeCliResult output = Except.ok (specRepeatedFenceClean output.stdout) := by
  unfold claudeCliResult
  rw [if_pos h]
  congr 1
  unfold cleanCliOutput specRepeatedFenceClean stripTrailingFences
  rw [stripLeadingFences_eq_dropBlocks, stripLeadingFences_eq_dropBlocks]

/-- C5 witness: the amended statement at the doubled-fence stdout, whose
cleaned value is "x". -/
theorem c5_amended_witness :
    claudeCliResult ⟨true, "``````x``````", ""⟩ =
      Except.ok (specRepeatedFenceClean "``````x``````") ∧
    specRepeatedFenceClean "``````x``````" = "x" :=
  ⟨c5_amended ⟨true, "``````x``````", ""⟩ rfl, by decide⟩

/-- C6, counterexample: the clean-up is not idempotent: cleaning
"```  ```x" yields "```x" (the final trim exposes a new leading fence),
and cleaning again yields "x". -/
theorem c6_counterexample :
    cleanCliOutput "```  ```x" = "```x" ∧
    cleanCliOutput (cleanCliOutput "```  ```x") = "x" ∧
    ("x" : String) ≠ "```x" :=
  ⟨by decide, by decide, by decide⟩

/-- C6 (amended): on every already-clean string — no leading or trailing
whitespace and no leading or trailing triple-backtick fence — the clean-up
is the identity (the general double-application claim fails, see the
counterexample). -/
theorem c6_amended (s : String)
    (h1 : s.data.head?.all (fun c => !c.isWhitespace) = true)
    (h2 : s.data.getLast?.all (fun c => !c.isWhitespace) = true)
    (h3 : ¬ (['`', '`', '`'] <+: s.data))
    (h4 : ¬ (['`', '`', '`'] <:+ s.data)) :
    cleanCliOutput s = s := by
  have hrev : ¬ (['`', '`', '`'] <+: s.data.reverse) := by
    intro hc
    apply h4
    have h5 : (['`', '`', '`'] : List Char).reverse <+: s.data.reverse := by
      simpa using hc
    exact List.reverse_prefix.mp h5
  unfold cleanCliOutput stripTrailingFences
  rw [trimChars_eq_self s.data h1 h2, stripLeadingFences_eq_self s.data h3,
      stripLeadingFences_eq_self s.data.reverse hrev, List.reverse_reverse,
      trimChars_eq_self s.data h1 h2]

/-- C6 witness: the already-clean string "hello" is a fixed point of the
clean-up. -/
theorem c6_amended_witness :
    ("hello".data.head?.all (fun c => !c.isWhitespace) = true) ∧
    ("hello".data.getLast?.all (fun c => !c.isWhitespace) = true) ∧
    (¬ (['`', '`', '`'] <+: "hello".data)) ∧
    (¬ (['`', '`', '`'] <:+ "hello".data)) ∧
    cleanCliOutput "hello" = "hello" :=
  ⟨by decide, by decide, by decide, by decide,
    c6_amended "hello" (by decide) (by decide) (by decide) (by decide)⟩

/-- C7: with an empty system prompt, the CLI argument vector is exactly
`-p <user_content>` (no `--system-prompt` argument) and the gateway
messages array is exactly the single user-role message (no system-role
entry). -/
theorem c7_empty_prompt_passthrough (user_content : String) :
    claudeCliArgs ⟨"", user_content⟩ = ["-p", user_content] ∧
    atlascloudMessages ⟨"", user_content⟩ = [{ role := "user", content := user_content }] ∧
    (atlascloudMessages ⟨"", user_content⟩).all (fun m => m.role != "system") = true :=
  ⟨rfl, rfl, rfl⟩

/-- C8: every adapter carries `user_content` verbatim: the CLI argument at
index 1, the last gateway message, the OpenAI user message, the Anthropic
user message, and the request recorded by every routing decision. -/
theorem c8_user_content_preserved (config : AppConfig) (prompt text model_id : String) :
    (claudeCliArgs ⟨prompt, text⟩).getD 1 "" = text ∧
    (atlascloudMessages ⟨prompt, text⟩).getLast? = some { role := "user", content := text } ∧
    openaiMessages ⟨prompt, text⟩ =
      [{ role := "system", content := prompt }, { role := "user", content := text }] ∧
    (anthropicBody ⟨prompt, text⟩ model_id).messages = [{ role := "user", content := text }] ∧
    Option.all (fun r => r.user_content == text)
      (Decision.request (processText config prompt text model_id)) = true := by
  refine ⟨?_, ?_, rfl, rfl, ?_⟩
  · unfold claudeCliArgs
    split <;> rfl
  · unfold atlascloudMessages
    dsimp only
    split <;> rfl
  · unfold processText
    dsimp only
    repeat' split
    all_goals simp [Decision.request, Option.all]

/-- C9: an empty extracted text is still a success: a gateway body whose
primary extraction path yields the empty string gives `Ok("")`, and a
successful process whose stdout is all whitespace gives `Ok("")`. -/
theorem c9_empty_success :
    (∀ j : Json, choicesPath j = some "" → atlascloudExtract j = Except.ok "") ∧
    (∀ output : ProcessOutput, output.success = true →
      output.stdout.data.all Char.isWhitespace = true →
      claudeCliResult output = Except.ok "") := by
  constructor
  · intro j h
    unfold atlascloudExtract extractAtlasText
    rw [h]
    rfl
  · intro output hs hws
    unfold claudeCliResult
    rw [if_pos hs, cleanCliOutput_of_whitespace output.stdout hws]

/-- C9 witness: a concrete 2xx body with `choices[0].message.content = ""`
yields `Ok("")`, and a successful process with whitespace-only stdout
yields `Ok("")`. -/
theorem c9_empty_success_witness :
    choicesPath (Json.obj [("choices", Json.arr
      [Json.obj [("message", Json.obj [("content", Json.str "")])]])]) = some "" ∧
    atlascloudExtract (Json.obj [("choices", Json.arr
      [Json.obj [("message", Json.obj [("content", Json.str "")])]])]) = Except.ok "" ∧
    claudeCliResult ⟨true, " \n\t", ""⟩ = Except.ok "" :=
  ⟨rfl, c9_empty_success.1 _ rfl, c9_empty_success.2 ⟨true, " \n\t", ""⟩ rfl (by decide)⟩

/-- C10: the two direct-provider adapters always send the system field,
also when the system prompt is empty: `call_openai_api` sends a
system-role message with empty content, and `call_anthropic_api` a
top-level `system` field equal to the empty string. -/
theorem c10_direct_adapters_send_empty_system (text model_id : String) :
    openaiMessages ⟨"", text⟩ =
      [{ role := "system", content := "" }, { role := "user", content := text }] ∧
    (anthropicBody ⟨"", text⟩ model_id).system = "" ∧
    anthropicBody ⟨"", text⟩ model_id =
      { model := model_id, system := "",
        messages := [{ role := "user", content := text }], max_tokens := 4096 } :=
  ⟨rfl, rfl, rfl⟩

end Samwise
